import Mathlib

/-!
Verification of the presence registry and socket-first delivery pipeline of the
Backend-RealTalk repository, a shallow embedding of the handlers in
src/socket/socketHandler.ts together with the HTTP fallback route
src/routes/messages.ts.

The server keeps three pieces of process-wide mutable state:
  userSockets        : Map<string, string>   (userId  -> socketId)
  socketUsers        : Map<string, string>   (socketId -> userId)
  offlineMessageQueue: Map<string, any[]>    (userId  -> queued messages)
We embed a JS Map as an insertion-ordered association list; Map.set updates an
existing key in place (keeping its position) and appends a fresh key at the
tail, exactly as the JS runtime does.  Socket handlers become pure functions
from (database, server state, payload) to (new state, emitted events, database
calls).  The deferred persistence task created with setImmediate in the
send-message handler is embedded as a separate function (sendMessagePhase2)
acting on the variables captured by that closure (SendCtx); running the handler
and then the deferred task in sequence reproduces the single-threaded event
loop, and other handlers may be interposed between the two phases to model
interleavings.
-/

/-- One entry of the prisma `user` table, restricted to the columns the socket
layer ever selects (id, clerkId, username, name, avatar). -/
structure User where
  id : String
  clerkId : String
  username : String
  name : String
  avatar : String
  deriving Repr, DecidableEq

/-- A durably persisted message as returned by prisma.message.create with the
sender/receiver include: the row id is abstracted as the insertion index. -/
structure SavedMessage where
  id : Nat
  content : String
  sender : User
  receiver : User
  deriving Repr, DecidableEq

/-- The relational store: a users table and a messages table. -/
structure Db where
  users : List User
  messages : List SavedMessage
  deriving Repr, DecidableEq

/-- prisma.user.findUnique with a clerkId key. -/
def findByClerkId (db : Db) (clerkId : String) : Option User :=
  db.users.find? (fun u => u.clerkId == clerkId)

/-- prisma.user.findUnique with an id key. -/
def findUserById (db : Db) (uid : String) : Option User :=
  db.users.find? (fun u => u.id == uid)

/-- The in-flight message object built by the send-message handler before
persistence (tempId, content, createdAt from the client payload, the resolved
sender and receiver records, status "sending"). -/
structure PendingMessage where
  tempId : String
  content : String
  createdAt : String
  sender : User
  receiver : User
  status : String
  deriving Repr, DecidableEq

/-- Payload of a new-message event: either the optimistic pending object or a
persisted record (queued messages and HTTP-path emits carry the latter). -/
inductive MsgPayload where
  | pending (p : PendingMessage)
  | saved (s : SavedMessage)
  deriving Repr, DecidableEq

/-- The payload of the send-message socket event. -/
structure SendMessageData where
  receiverId : String
  content : String
  tempId : String
  timestamp : String
  deriving Repr, DecidableEq

/-- Every event the socket layer can emit.  The first String is always the
socket id the event is addressed to, except for the broadcast events
userOnlineStatus / userOfflineStatus (addressed to everyone but the named
socket) and onlineUsersCount (addressed to every connection). -/
inductive Event where
  | errorEv (sockId msg : String)
  | syncRequired (sockId : String)
  | userOnlineStatus (fromSockId userId username avatar : String)
  | onlineUsersCount (count : Nat)
  | connectionConfirmed (sockId userId : String) (onlineCount : Nat)
  | newMessage (sockId : String) (m : MsgPayload)
  | messageConfirmed (sockId tempId : String) (m : SavedMessage)
  | messageFailed (sockId tempId : String)
  | messageError (sockId tempId errMsg : String)
  | userTyping (sockId fromUserId username : String)
  | userStopTyping (sockId fromUserId : String)
  | messageReadReceipt (sockId messageId : String)
  | userOfflineStatus (fromSockId userId : String)
  deriving Repr, DecidableEq

/-- A call made to the storage collaborator, recorded so that theorems can
state that no lookup or persistence happened on a given path. -/
inductive DbCall where
  | findByClerk (clerkId : String)
  | findById (uid : String)
  | createMessage (senderId receiverId content : String)
  deriving Repr, DecidableEq

/-- The three process-wide maps of socketHandler.ts. -/
structure ServerState where
  userSockets : List (String × String)
  socketUsers : List (String × String)
  offlineMessageQueue : List (String × List SavedMessage)
  deriving Repr, DecidableEq

/-- JS Map.get. -/
def mget {α : Type} : List (String × α) → String → Option α
  | [], _ => none
  | p :: rest, k => if p.1 == k then some p.2 else mget rest k

/-- JS Map.set: update an existing key in place, append a fresh key. -/
def mset {α : Type} : List (String × α) → String → α → List (String × α)
  | [], k, v => [(k, v)]
  | p :: rest, k, v => if p.1 == k then (k, v) :: rest else p :: mset rest k v

/-- JS Map.delete. -/
def mdel {α : Type} : List (String × α) → String → List (String × α)
  | [], _ => []
  | p :: rest, k => if p.1 == k then mdel rest k else p :: mdel rest k

@[simp] theorem mget_nil {α : Type} (k : String) : mget ([] : List (String × α)) k = none := rfl

@[simp] theorem mget_cons {α : Type} (p : String × α) (rest : List (String × α)) (k : String) :
    mget (p :: rest) k = if p.1 == k then some p.2 else mget rest k := rfl

theorem mget_mset_self {α : Type} (m : List (String × α)) (k : String) (v : α) :
    mget (mset m k v) k = some v := by
  induction m with
  | nil => simp [mset, mget]
  | cons p rest ih =>
      by_cases h : p.1 = k
      · simp [mset, mget, h]
      · simp [mset, mget, h, ih]

theorem mget_mset_ne {α : Type} (m : List (String × α)) (k k' : String) (v : α)
    (h : k' ≠ k) : mget (mset m k v) k' = mget m k' := by
  induction m with
  | nil => simp [mset, mget, Ne.symm h]
  | cons p rest ih =>
      by_cases hp : p.1 = k
      · simp [mset, mget, hp, Ne.symm h]
      · by_cases hp' : p.1 = k'
        · simp [mset, mget, hp, hp', h, Ne.symm h]
        · simp [mset, mget, hp, hp', ih]

theorem mget_mdel_self {α : Type} (m : List (String × α)) (k : String) :
    mget (mdel m k) k = none := by
  induction m with
  | nil => simp [mdel, mget]
  | cons p rest ih =>
      by_cases h : p.1 = k
      · simp [mdel, h, ih]
      · simp [mdel, mget, h, ih]

theorem mget_mdel_ne {α : Type} (m : List (String × α)) (k k' : String)
    (h : k' ≠ k) : mget (mdel m k) k' = mget m k' := by
  induction m with
  | nil => simp [mdel]
  | cons p rest ih =>
      by_cases hp : p.1 = k
      · simp [mdel, mget, hp, Ne.symm h, ih]
      · simp [mdel, mget, hp, ih]

theorem length_mset_absent {α : Type} (m : List (String × α)) (k : String) (v : α)
    (h : mget m k = none) : (mset m k v).length = m.length + 1 := by
  induction m with
  | nil => simp [mset]
  | cons p rest ih =>
      by_cases hp : p.1 = k
      · simp [mget, hp] at h
      · simp [mget, hp] at h
        simp [mset, hp, ih h]

/-! ## The user-online handler (socketHandler.ts lines 52-99)

On `user-online` the handler rejects a falsy userId, looks the user up by
clerkId (syncUserFromClerk), evicts the socketUsers entry of a previous socket
of the same user, stores both map directions, broadcasts the online status and
the online count, confirms the connection, and finally drains the offline
queue for that user (deleting the queue key only when it was non-empty). -/

def userOnline (db : Db) (st : ServerState) (sockId userId : String) :
    ServerState × List Event :=
  if userId = "" then (st, [Event.errorEv sockId "Invalid user ID"])
  else
    match findByClerkId db userId with
    | none => (st, [Event.syncRequired sockId])
    | some user =>
        let st1 :=
          match mget st.userSockets userId with
          | some existingSocketId =>
              if existingSocketId ≠ "" ∧ existingSocketId ≠ sockId then
                { st with socketUsers := mdel st.socketUsers existingSocketId }
              else st
          | none => st
        let st2 := { st1 with
          userSockets := mset st1.userSockets userId sockId,
          socketUsers := mset st1.socketUsers sockId userId }
        let baseEvents :=
          [Event.userOnlineStatus sockId userId user.username user.avatar,
           Event.onlineUsersCount st2.userSockets.length,
           Event.connectionConfirmed sockId userId st2.userSockets.length]
        match mget st2.offlineMessageQueue userId with
        | some queuedMessages =>
            if queuedMessages.length > 0 then
              ({ st2 with offlineMessageQueue := mdel st2.offlineMessageQueue userId },
               baseEvents ++ queuedMessages.map (fun m => Event.newMessage sockId (MsgPayload.saved m)))
            else (st2, baseEvents)
        | none => (st2, baseEvents)

/-! ## The send-message handler (socketHandler.ts lines 104-259)

The handler body up to the setImmediate call is sendMessagePhase1; the
deferred persistence task is sendMessagePhase2, acting on the variables the
setImmediate closure captures (SendCtx).  Note that receiverSocketId is read
from the registry once, before persistence, and the closure keeps that stale
value. -/

/-- The environment captured by the setImmediate closure of send-message. -/
structure SendCtx where
  senderSockId : String
  tempId : String
  content : String
  sender : User
  receiver : User
  receiverSocketId : Option String
  deriving Repr, DecidableEq

structure Phase1Result where
  st : ServerState
  events : List Event
  calls : List DbCall
  ctx : Option SendCtx
  deriving Repr, DecidableEq

structure Phase2Result where
  db : Db
  st : ServerState
  events : List Event
  calls : List DbCall
  deriving Repr, DecidableEq

structure SendResult where
  db : Db
  st : ServerState
  events : List Event
  calls : List DbCall
  deriving Repr, DecidableEq

/-- The pendingMessage object of lines 151-158. -/
def mkPending (data : SendMessageData) (sender receiver : User) : PendingMessage :=
  { tempId := data.tempId, content := data.content, createdAt := data.timestamp,
    sender := sender, receiver := receiver, status := "sending" }

/-- Synchronous part of the send-message handler: the authentication guard,
the two user lookups, the optimistic emit to a live receiver (or queue-key
creation for an offline one), and the capture of the closure environment. -/
def sendMessagePhase1 (db : Db) (st : ServerState) (sockId : String)
    (data : SendMessageData) : Phase1Result :=
  match mget st.socketUsers sockId with
  | none => { st := st, events := [Event.messageError sockId data.tempId "Not authenticated"],
              calls := [], ctx := none }
  | some senderId =>
      if senderId = "" then
        { st := st, events := [Event.messageError sockId data.tempId "Not authenticated"],
          calls := [], ctx := none }
      else
        let lookups := [DbCall.findByClerk senderId, DbCall.findById data.receiverId]
        match findByClerkId db senderId, findUserById db data.receiverId with
        | some sender, some receiver =>
            let pendingMessage := mkPending data sender receiver
            let receiverSocketId := mget st.userSockets receiver.clerkId
            let ctx : SendCtx :=
              { senderSockId := sockId, tempId := data.tempId, content := data.content,
                sender := sender, receiver := receiver, receiverSocketId := receiverSocketId }
            match receiverSocketId with
            | some rs =>
                { st := st, events := [Event.newMessage rs (MsgPayload.pending pendingMessage)],
                  calls := lookups, ctx := some ctx }
            | none =>
                let st1 :=
                  if mget st.offlineMessageQueue receiver.clerkId = none then
                    { st with offlineMessageQueue := mset st.offlineMessageQueue receiver.clerkId [] }
                  else st
                { st := st1, events := [], calls := lookups, ctx := some ctx }
        | none, _ =>
            { st := st, events := [Event.messageError sockId data.tempId "User not found"],
              calls := lookups, ctx := none }
        | _, none =>
            { st := st, events := [Event.messageError sockId data.tempId "User not found"],
              calls := lookups, ctx := none }

/-- Deferred persistence task of send-message (the setImmediate closure of
lines 176-250).  dbOk selects the success or the failure branch of the
prisma.message.create call.  On success the durable record goes to the sender,
and to the receiverSocketId captured before persistence when one was captured;
otherwise it is appended to the offline queue.  On failure both parties (per
the captured socket id) get message-failed. -/
def sendMessagePhase2 (db : Db) (st : ServerState) (ctx : SendCtx) (dbOk : Bool) :
    Phase2Result :=
  let call := DbCall.createMessage ctx.sender.id ctx.receiver.id ctx.content
  if dbOk then
    let savedMessage : SavedMessage :=
      { id := db.messages.length, content := ctx.content,
        sender := ctx.sender, receiver := ctx.receiver }
    let db1 : Db := { db with messages := db.messages ++ [savedMessage] }
    match ctx.receiverSocketId with
    | some rs =>
        { db := db1, st := st,
          events := [Event.messageConfirmed ctx.senderSockId ctx.tempId savedMessage,
                     Event.messageConfirmed rs ctx.tempId savedMessage],
          calls := [call] }
    | none =>
        let queue := (mget st.offlineMessageQueue ctx.receiver.clerkId).getD []
        let q1 := mset st.offlineMessageQueue ctx.receiver.clerkId (queue ++ [savedMessage])
        { db := db1,
          st := { st with offlineMessageQueue := q1 },
          events := [Event.messageConfirmed ctx.senderSockId ctx.tempId savedMessage],
          calls := [call] }
  else
    match ctx.receiverSocketId with
    | some rs =>
        { db := db, st := st,
          events := [Event.messageFailed ctx.senderSockId ctx.tempId,
                     Event.messageFailed rs ctx.tempId],
          calls := [call] }
    | none =>
        { db := db, st := st,
          events := [Event.messageFailed ctx.senderSockId ctx.tempId],
          calls := [call] }

/-- A full send-message operation on an otherwise idle event loop: the handler
runs, then the deferred persistence task (when one was scheduled) runs with no
other handler interposed, so its events follow the handler events. -/
def sendMessageOp (db : Db) (st : ServerState) (sockId : String)
    (data : SendMessageData) (dbOk : Bool) : SendResult :=
  let r1 := sendMessagePhase1 db st sockId data
  match r1.ctx with
  | none => { db := db, st := r1.st, events := r1.events, calls := r1.calls }
  | some ctx =>
      let r2 := sendMessagePhase2 db r1.st ctx dbOk
      { db := r2.db, st := r2.st, events := r1.events ++ r2.events,
        calls := r1.calls ++ r2.calls }

/-! ## Disconnect handler, reaper, ephemeral signals -/

/-- The disconnect handler (socketHandler.ts lines 287-301): look the userId
up, delete both map directions, broadcast offline status and the new count. -/
def disconnectHandler (st : ServerState) (sockId : String) : ServerState × List Event :=
  match mget st.socketUsers sockId with
  | some userId =>
      if userId = "" then (st, [])
      else
        let st1 := { st with
          userSockets := mdel st.userSockets userId,
          socketUsers := mdel st.socketUsers sockId }
        (st1, [Event.userOfflineStatus sockId userId,
               Event.onlineUsersCount st1.userSockets.length])
  | none => (st, [])

/-- The body of the stale-connection sweep (socketHandler.ts lines 314-330):
iterate over the socketUsers entries and delete both directions of every
entry whose socket the transport no longer reports as connected, counting the
removals.  Iterating the snapshot list is faithful to the JS for-of loop,
which only deletes the entry it is currently visiting. -/
def reapLoop (connected : List String) :
    List (String × String) → ServerState → ServerState × Nat
  | [], st => (st, 0)
  | (sId, uId) :: rest, st =>
      if sId ∈ connected then reapLoop connected rest st
      else
        let st1 := { st with
          socketUsers := mdel st.socketUsers sId,
          userSockets := mdel st.userSockets uId }
        let r := reapLoop connected rest st1
        (r.1, r.2 + 1)

/-- One reaper tick: sweep, then broadcast the new online count when at least
one stale entry was removed.  No other event is emitted. -/
def reaperSweep (st : ServerState) (connected : List String) : ServerState × List Event :=
  let r := reapLoop connected st.socketUsers st
  (r.1, if r.2 > 0 then [Event.onlineUsersCount r.1.userSockets.length] else [])

/-- Payload of the typing event. -/
structure TypingData where
  toUserId : String
  fromUserId : String
  username : String
  deriving Repr, DecidableEq

/-- The typing handler (socketHandler.ts lines 262-273): drop when either id
is falsy, otherwise forward to the target socket when the target is online. -/
def typingHandler (st : ServerState) (_sockId : String) (data : TypingData) : List Event :=
  if data.toUserId = "" ∨ data.fromUserId = "" then []
  else
    match mget st.userSockets data.toUserId with
    | some targetSocketId =>
        [Event.userTyping targetSocketId data.fromUserId
          (if data.username = "" then "User" else data.username)]
    | none => []

/-- The stop-typing handler (socketHandler.ts lines 275-284). -/
def stopTypingHandler (st : ServerState) (_sockId toUserId fromUserId : String) : List Event :=
  if toUserId = "" ∨ fromUserId = "" then []
  else
    match mget st.userSockets toUserId with
    | some targetSocketId => [Event.userStopTyping targetSocketId fromUserId]
    | none => []

/-- The message-read handler of the socket handler (the UPDATED VERSION file,
lines 327-336): no validation of the payload at all; the registry is consulted
for senderId directly and the receipt is forwarded whenever that user is
online, whatever the messageId. -/
def messageReadHandler (st : ServerState) (_sockId messageId senderId : String) : List Event :=
  match mget st.userSockets senderId with
  | some senderSocketId => [Event.messageReadReceipt senderSocketId messageId]
  | none => []

/-! ## The HTTP fallback route POST /api/messages (routes/messages.ts)

The route validates the body with the zod schema (receiverId at least one
character; content between 1 and 1000 characters, trimmed only after the
length checks pass), then looks the sender up by clerkId and the receiver by
id, rejects a self-send with status 400, persists, and finally emits
new-message to the receiver socket when one is registered. -/

structure HttpResult where
  db : Db
  events : List Event
  status : Nat
  calls : List DbCall
  deriving Repr, DecidableEq

def postMessage (db : Db) (st : ServerState) (clerkId receiverId content : String)
    (dbOk : Bool) : HttpResult :=
  if receiverId.length < 1 ∨ content.length < 1 ∨ 1000 < content.length then
    { db := db, events := [], status := 400, calls := [] }
  else
    let contentT := content.trim
    match findByClerkId db clerkId with
    | none => { db := db, events := [], status := 404, calls := [DbCall.findByClerk clerkId] }
    | some sender =>
        match findUserById db receiverId with
        | none =>
            { db := db, events := [], status := 404,
              calls := [DbCall.findByClerk clerkId, DbCall.findById receiverId] }
        | some receiver =>
            if sender.id = receiver.id then
              { db := db, events := [], status := 400,
                calls := [DbCall.findByClerk clerkId, DbCall.findById receiverId] }
            else if dbOk then
              let savedMessage : SavedMessage :=
                { id := db.messages.length, content := contentT,
                  sender := sender, receiver := receiver }
              let db1 : Db := { db with messages := db.messages ++ [savedMessage] }
              let events :=
                match mget st.userSockets receiver.clerkId with
                | some rs => [Event.newMessage rs (MsgPayload.saved savedMessage)]
                | none => []
              { db := db1, events := events, status := 201,
                calls := [DbCall.findByClerk clerkId, DbCall.findById receiverId,
                          DbCall.createMessage sender.id receiver.id contentT] }
            else
              { db := db, events := [], status := 500,
                calls := [DbCall.findByClerk clerkId, DbCall.findById receiverId,
                          DbCall.createMessage sender.id receiver.id contentT] }

/-! ## Sequential multi-send and the expected queue contents -/

/-- A sequence of send-message operations from one socket, each persistence
task completing (successfully) before the next send arrives. -/
def sendMany (db : Db) (st : ServerState) (sockId : String) :
    List SendMessageData → Db × ServerState
  | [] => (db, st)
  | d :: ds =>
      let r := sendMessageOp db st sockId d true
      sendMany r.db r.st sockId ds

/-- The persisted records such a sequence produces, with consecutive row ids
starting at the current table length. -/
def expectedSaved (n : Nat) (sender receiver : User) :
    List SendMessageData → List SavedMessage
  | [] => []
  | d :: ds =>
      { id := n, content := d.content, sender := sender, receiver := receiver }
        :: expectedSaved (n + 1) sender receiver ds

/-- Recognizes a message-confirmed or message-failed event addressed to the
given socket and carrying the given tempId. -/
def isFinalFor (sockId tempId : String) : Event → Bool
  | Event.messageConfirmed s t _ => s == sockId && t == tempId
  | Event.messageFailed s t => s == sockId && t == tempId
  | _ => false

/-- Recognizes the offline-status broadcast. -/
def isOfflineStatusEv : Event → Bool
  | Event.userOfflineStatus _ _ => true
  | _ => false

/-! ## Concrete fixtures shared by witnesses and counterexamples -/

def uA : User := { id := "a1", clerkId := "ua", username := "alice", name := "Alice", avatar := "avA" }

def uB : User := { id := "b1", clerkId := "ub", username := "bob", name := "Bob", avatar := "avB" }

def dbC : Db := { users := [uA, uB], messages := [] }

/-- Both users online. -/
def stBoth : ServerState :=
  { userSockets := [("ua", "sa"), ("ub", "sb")],
    socketUsers := [("sa", "ua"), ("sb", "ub")],
    offlineMessageQueue := [] }

/-- Only user A online. -/
def stAOnly : ServerState :=
  { userSockets := [("ua", "sa")], socketUsers := [("sa", "ua")], offlineMessageQueue := [] }

def savedQ : SavedMessage := { id := 0, content := "hello", sender := uA, receiver := uB }

/-- Nobody online, one message queued for user B. -/
def stQueuedB : ServerState :=
  { userSockets := [], socketUsers := [], offlineMessageQueue := [("ub", [savedQ])] }

def dataHi : SendMessageData := { receiverId := "b1", content := "hi", tempId := "t1", timestamp := "T0" }

theorem mset_mset_self {α : Type} (m : List (String × α)) (k : String) (v w : α) :
    mset (mset m k v) k w = mset m k w := by
  induction m with
  | nil => simp [mset]
  | cons p rest ih =>
      by_cases h : p.1 = k
      · simp [mset, h]
      · simp [mset, h, ih]

theorem findByClerkId_users_eq (db1 db2 : Db) (c : String) (h : db1.users = db2.users) :
    findByClerkId db1 c = findByClerkId db2 c := by
  unfold findByClerkId; rw [h]

theorem findUserById_users_eq (db1 db2 : Db) (c : String) (h : db1.users = db2.users) :
    findUserById db1 c = findUserById db2 c := by
  unfold findUserById; rw [h]

def dataSelf : SendMessageData :=
  { receiverId := "a1", content := "me", tempId := "t9", timestamp := "T1" }

def dataEmpty : SendMessageData :=
  { receiverId := "b1", content := "", tempId := "t2", timestamp := "T2" }

def savedHi : SavedMessage := { id := 0, content := "hi", sender := uA, receiver := uB }

/-- The closure environment the send-message handler captures for dataHi when
both users are online. -/
def ctxHi : SendCtx :=
  { senderSockId := "sa", tempId := "t1", content := "hi", sender := uA, receiver := uB,
    receiverSocketId := some "sb" }

def stStale : ServerState :=
  { userSockets := [("u1", "s1")], socketUsers := [("s1", "u1")], offlineMessageQueue := [] }

/-- Claim C1: the registry is claimed to keep, after every operation, at most
one connection per userId and at most one userId per connection, in particular
when a single connection identifies successively as two different userIds.
The code violates this: the user-online handler only evicts the stale mapping
of a previous socket of the SAME userId; when socket s1 identifies as ua and
then as ub, the userSockets entry ua -> s1 survives, so two distinct userIds
are mapped to the same connection, and the ghost entry even survives the
disconnect of s1 (the disconnect handler only removes the current userId). -/
theorem registry_two_userIds_one_socket :
    mget (userOnline dbC (userOnline dbC ⟨[], [], []⟩ "s1" "ua").1 "s1" "ub").1.userSockets "ua"
      = some "s1" ∧
    mget (userOnline dbC (userOnline dbC ⟨[], [], []⟩ "s1" "ua").1 "s1" "ub").1.userSockets "ub"
      = some "s1" ∧
    ("ua" : String) ≠ "ub" ∧
    mget (disconnectHandler
            (userOnline dbC (userOnline dbC ⟨[], [], []⟩ "s1" "ua").1 "s1" "ub").1 "s1").1.userSockets "ua"
      = some "s1" := by
  refine ⟨by decide, by decide, by decide, by decide⟩

/-- Claim C10: a send-message from a socket with no registered userId is
rejected with a message-error carrying the original tempId and the reason
Not authenticated, with no state change, no lookup and no persistence. -/
theorem sendMessage_unauthenticated (db : Db) (st : ServerState) (sockId : String)
    (data : SendMessageData) (dbOk : Bool)
    (h : mget st.socketUsers sockId = none) :
    sendMessageOp db st sockId data dbOk =
      { db := db, st := st,
        events := [Event.messageError sockId data.tempId "Not authenticated"],
        calls := [] } := by
  simp [sendMessageOp, sendMessagePhase1, h]

theorem sendMessage_unauthenticated_witness :
    mget stAOnly.socketUsers "sZ" = none ∧
    sendMessageOp dbC stAOnly "sZ" dataHi true =
      { db := dbC, st := stAOnly,
        events := [Event.messageError "sZ" "t1" "Not authenticated"],
        calls := [] } :=
  ⟨by decide, sendMessage_unauthenticated dbC stAOnly "sZ" dataHi true (by decide)⟩

/-- Claim C4: when the receiver has a live connection at send time, the
optimistic new-message event is the first event of the send operation and any
message-confirmed or message-failed event for the same tempId addressed to
that receiver comes strictly later, for both persistence outcomes. -/
theorem sendMessage_new_message_before_final
    (db : Db) (st : ServerState) (sockId : String) (data : SendMessageData) (dbOk : Bool)
    (senderId : String) (sender receiver : User) (rs : String)
    (h1 : mget st.socketUsers sockId = some senderId)
    (h2 : senderId ≠ "")
    (h3 : findByClerkId db senderId = some sender)
    (h4 : findUserById db data.receiverId = some receiver)
    (h5 : mget st.userSockets receiver.clerkId = some rs) :
    ∀ j e, ((sendMessageOp db st sockId data dbOk).events).get? j = some e →
      isFinalFor rs data.tempId e = true →
      ∃ i pm, i < j ∧
        ((sendMessageOp db st sockId data dbOk).events).get? i
          = some (Event.newMessage rs (MsgPayload.pending pm)) ∧
        pm.tempId = data.tempId := by
  have hevs : ∃ rest, (sendMessageOp db st sockId data dbOk).events
      = Event.newMessage rs (MsgPayload.pending (mkPending data sender receiver)) :: rest := by
    refine ⟨(sendMessagePhase2 db st
      { senderSockId := sockId, tempId := data.tempId, content := data.content,
        sender := sender, receiver := receiver, receiverSocketId := some rs } dbOk).events, ?_⟩
    simp [sendMessageOp, sendMessagePhase1, h1, h2, h3, h4, h5]
  obtain ⟨rest, hrest⟩ := hevs
  intro j e hj hf
  rw [hrest] at hj
  match j with
  | 0 =>
      simp only [List.get?] at hj
      cases hj
      simp [isFinalFor] at hf
  | Nat.succ j' =>
      exact ⟨0, mkPending data sender receiver, Nat.succ_pos j',
             by rw [hrest]; rfl, rfl⟩

theorem sendMessage_new_message_before_final_witness :
    mget stBoth.userSockets uB.clerkId = some "sb" ∧
    (∀ j e, ((sendMessageOp dbC stBoth "sa" dataHi true).events).get? j = some e →
      isFinalFor "sb" dataHi.tempId e = true →
      ∃ i pm, i < j ∧
        ((sendMessageOp dbC stBoth "sa" dataHi true).events).get? i
          = some (Event.newMessage "sb" (MsgPayload.pending pm)) ∧
        pm.tempId = dataHi.tempId) :=
  ⟨by decide,
   sendMessage_new_message_before_final dbC stBoth "sa" dataHi true "ua" uA uB "sb"
     (by decide) (by decide) (by decide) (by decide) (by decide)⟩

/-- Claim C2 counterexample: the claim says a self-send is rejected with a
validation error before step 1, with no identity lookup, no optimistic
delivery, no queueing and no createMessage call.  On the socket path there is
no self-send check at all: with user A identified on socket sa, a send-message
whose receiverId is the own database id runs both lookups, optimistically
delivers the message to the own socket and persists it. -/
theorem self_send_reaches_persistence :
    DbCall.findByClerk "ua" ∈ (sendMessageOp dbC stAOnly "sa" dataSelf true).calls ∧
    DbCall.createMessage "a1" "a1" "me" ∈ (sendMessageOp dbC stAOnly "sa" dataSelf true).calls ∧
    Event.newMessage "sa" (MsgPayload.pending (mkPending dataSelf uA uA))
      ∈ (sendMessageOp dbC stAOnly "sa" dataSelf true).events ∧
    (sendMessageOp dbC stAOnly "sa" dataSelf true).db.messages.length = 1 := by
  refine ⟨by decide, by decide, by decide, by decide⟩

/-- Claim C2 amended: only the HTTP fallback route rejects a self-send, with
status 400, after the sender and receiver identity lookups but before any
persistence (createMessage is not called, the store is unchanged, nothing is
emitted); the socket-path send-message performs no self-send check. -/
theorem postMessage_self_send_rejected
    (db : Db) (st : ServerState) (clerkId receiverId content : String) (dbOk : Bool)
    (sender receiver : User)
    (hv1 : 1 ≤ receiverId.length) (hv2 : 1 ≤ content.length) (hv3 : content.length ≤ 1000)
    (h1 : findByClerkId db clerkId = some sender)
    (h2 : findUserById db receiverId = some receiver)
    (h3 : sender.id = receiver.id) :
    postMessage db st clerkId receiverId content dbOk =
      { db := db, events := [], status := 400,
        calls := [DbCall.findByClerk clerkId, DbCall.findById receiverId] } := by
  have hcond : ¬(receiverId.length < 1 ∨ content.length < 1 ∨ 1000 < content.length) := by
    omega
  simp [postMessage, hcond, h1, h2, h3]
  omega

theorem postMessage_self_send_rejected_witness :
    findByClerkId dbC "ua" = some uA ∧ findUserById dbC "a1" = some uA ∧
    postMessage dbC stBoth "ua" "a1" "hi" true =
      { db := dbC, events := [], status := 400,
        calls := [DbCall.findByClerk "ua", DbCall.findById "a1"] } :=
  ⟨by decide, by decide,
   postMessage_self_send_rejected dbC stBoth "ua" "a1" "hi" true uA uA
     (by decide) (by decide) (by decide) (by decide) (by decide) rfl⟩

/-- Claim C3 counterexample: the claim says content is validated for
non-emptiness before any lookup and an empty message never reaches the
receiver nor storage.  The socket path validates nothing: a send-message with
empty content from identified A to live B performs both lookups, delivers the
optimistic new-message to B and calls createMessage with empty content. -/
theorem empty_content_reaches_receiver :
    ((sendMessageOp dbC stBoth "sa" dataEmpty true).events).get? 0
      = some (Event.newMessage "sb" (MsgPayload.pending (mkPending dataEmpty uA uB))) ∧
    DbCall.createMessage "a1" "b1" "" ∈ (sendMessageOp dbC stBoth "sa" dataEmpty true).calls ∧
    (sendMessageOp dbC stBoth "sa" dataEmpty true).db.messages.length = 1 := by
  refine ⟨by decide, by decide, by decide⟩

/-- Claim C3 amended: only the HTTP fallback route validates content, and it
rejects an empty content with status 400 before any identity lookup or
storage interaction (no collaborator call, store unchanged, nothing emitted);
the socket path performs no content validation and relays and persists an
empty message. -/
theorem postMessage_empty_content_rejected
    (db : Db) (st : ServerState) (clerkId receiverId : String) (dbOk : Bool) :
    postMessage db st clerkId receiverId "" dbOk =
      { db := db, events := [], status := 400, calls := [] } := by
  have hcond : receiverId.length < 1 ∨ ("" : String).length < 1 ∨ 1000 < ("" : String).length :=
    Or.inr (Or.inl (by decide))
  simp [postMessage, hcond]

/-- Claim C5 counterexample: the claim says a receiver that was live at the
optimistic step but offline when persistence completes gets the durable record
enqueued instead of emitted.  In the code the persistence task keeps the
receiverSocketId captured before persistence: after A sends to live B on sb,
B disconnects, and persistence then completes, message-confirmed is emitted to
the dead socket sb, B is offline, and nothing is enqueued for B. -/
theorem confirm_emitted_to_dead_socket :
    (sendMessagePhase1 dbC stBoth "sa" dataHi).ctx = some ctxHi ∧
    mget (disconnectHandler (sendMessagePhase1 dbC stBoth "sa" dataHi).st "sb").1.userSockets "ub"
      = none ∧
    (sendMessagePhase2 dbC
        (disconnectHandler (sendMessagePhase1 dbC stBoth "sa" dataHi).st "sb").1 ctxHi true).events
      = [Event.messageConfirmed "sa" "t1" savedHi, Event.messageConfirmed "sb" "t1" savedHi] ∧
    mget (sendMessagePhase2 dbC
        (disconnectHandler (sendMessagePhase1 dbC stBoth "sa" dataHi).st "sb").1 ctxHi
        true).st.offlineMessageQueue "ub"
      = none := by
  refine ⟨by decide, by decide, by decide, by decide⟩

/-- Claim C5 amended: the post-persistence branch is decided by the receiver
socket id captured at the optimistic-delivery step, not by the registry at
completion time: whenever a socket id was captured, the confirmed event is
emitted to that possibly dead socket id and the offline queue is untouched,
whatever the server state is when persistence completes; the durable record is
enqueued only when the receiver was already offline at capture time. -/
theorem phase2_emits_to_captured_socket
    (db : Db) (st : ServerState) (ctx : SendCtx) (rs : String)
    (h : ctx.receiverSocketId = some rs) :
    (sendMessagePhase2 db st ctx true).st = st ∧
    (sendMessagePhase2 db st ctx true).events =
      [Event.messageConfirmed ctx.senderSockId ctx.tempId
         { id := db.messages.length, content := ctx.content,
           sender := ctx.sender, receiver := ctx.receiver },
       Event.messageConfirmed rs ctx.tempId
         { id := db.messages.length, content := ctx.content,
           sender := ctx.sender, receiver := ctx.receiver }] := by
  simp [sendMessagePhase2, h]

theorem phase2_emits_to_captured_socket_witness :
    ctxHi.receiverSocketId = some "sb" ∧
    ((sendMessagePhase2 dbC stAOnly ctxHi true).st = stAOnly ∧
     (sendMessagePhase2 dbC stAOnly ctxHi true).events =
       [Event.messageConfirmed "sa" "t1" savedHi, Event.messageConfirmed "sb" "t1" savedHi]) :=
  ⟨rfl, phase2_emits_to_captured_socket dbC stAOnly ctxHi "sb" rfl⟩

/-- Shape of a user-online call from a fresh socket of a user with a non-empty
offline queue: the three presence events come first, then the queued messages
in insertion order, and the queue key is removed. -/
theorem userOnline_fresh_drain
    (db : Db) (st : ServerState) (sockId userId : String) (user : User) (q : List SavedMessage)
    (h0 : userId ≠ "")
    (h1 : findByClerkId db userId = some user)
    (h2 : mget st.userSockets userId = none)
    (h3 : mget st.offlineMessageQueue userId = some q)
    (h4 : q ≠ []) :
    (userOnline db st sockId userId).2 =
      [Event.userOnlineStatus sockId userId user.username user.avatar,
       Event.onlineUsersCount (st.userSockets.length + 1),
       Event.connectionConfirmed sockId userId (st.userSockets.length + 1)]
      ++ q.map (fun m => Event.newMessage sockId (MsgPayload.saved m)) ∧
    mget (userOnline db st sockId userId).1.offlineMessageQueue userId = none := by
  have hlen : q.length > 0 := List.length_pos.mpr h4
  have hsize := length_mset_absent st.userSockets userId sockId h2
  constructor
  · simp [userOnline, h0, h1, h2, h3, hlen, hsize]
  · simp [userOnline, h0, h1, h2, h3, hlen, mget_mdel_self]

/-- Claim C6 counterexample: the claim says the queue is drained before any
other event is emitted to the reconnecting connection.  With one message
queued for B, the identify of B on socket sb emits online-users-count and
connection-confirmed to sb at positions 1 and 2 of the trace, and the queued
new-message only at position 3. -/
theorem drain_not_first_event :
    ((userOnline dbC stQueuedB "sb" "ub").2).get? 2
      = some (Event.connectionConfirmed "sb" "ub" 1) ∧
    ((userOnline dbC stQueuedB "sb" "ub").2).get? 3
      = some (Event.newMessage "sb" (MsgPayload.saved savedQ)) := by
  refine ⟨by decide, by decide⟩

/-- Claim C6 amended: on a successful identify the offline queue of that user
is drained exactly once, immediately after setOnline, but only after the
online-status broadcast, the online-count broadcast and the
connection-confirmed event have been emitted; the queued messages are the
final events of the identify handler and the queue key is removed. -/
theorem userOnline_drains_once_after_presence_events
    (db : Db) (st : ServerState) (sockId userId : String) (user : User) (q : List SavedMessage)
    (h0 : userId ≠ "")
    (h1 : findByClerkId db userId = some user)
    (h2 : mget st.userSockets userId = none)
    (h3 : mget st.offlineMessageQueue userId = some q)
    (h4 : q ≠ []) :
    (userOnline db st sockId userId).2 =
      [Event.userOnlineStatus sockId userId user.username user.avatar,
       Event.onlineUsersCount (st.userSockets.length + 1),
       Event.connectionConfirmed sockId userId (st.userSockets.length + 1)]
      ++ q.map (fun m => Event.newMessage sockId (MsgPayload.saved m)) ∧
    mget (userOnline db st sockId userId).1.offlineMessageQueue userId = none :=
  userOnline_fresh_drain db st sockId userId user q h0 h1 h2 h3 h4

theorem userOnline_drains_once_after_presence_events_witness :
    mget stQueuedB.offlineMessageQueue "ub" = some [savedQ] ∧
    ((userOnline dbC stQueuedB "sb" "ub").2 =
      [Event.userOnlineStatus "sb" "ub" "bob" "avB",
       Event.onlineUsersCount 1,
       Event.connectionConfirmed "sb" "ub" 1]
      ++ [savedQ].map (fun m => Event.newMessage "sb" (MsgPayload.saved m)) ∧
     mget (userOnline dbC stQueuedB "sb" "ub").1.offlineMessageQueue "ub" = none) :=
  ⟨by decide,
   userOnline_drains_once_after_presence_events dbC stQueuedB "sb" "ub" uB [savedQ]
     (by decide) (by decide) (by decide) (by decide) (by decide)⟩

/-- Claim C7 counterexample: the claim says a reaper eviction performs the
same cleanup as an explicit disconnect, including exactly one offline-status
broadcast for the evicted userId.  Reaping the stale entry (s1, u1) cleans
both map directions but emits only the online-count broadcast; no
offline-status broadcast at all, unlike the explicit disconnect of s1. -/
theorem reaper_emits_no_offline_broadcast :
    reaperSweep stStale [] =
      ({ userSockets := [], socketUsers := [], offlineMessageQueue := [] },
       [Event.onlineUsersCount 0]) ∧
    ((reaperSweep stStale []).2).all (fun e => !(isOfflineStatusEv e)) = true ∧
    disconnectHandler stStale "s1" =
      ({ userSockets := [], socketUsers := [], offlineMessageQueue := [] },
       [Event.userOfflineStatus "s1" "u1", Event.onlineUsersCount 0]) := by
  refine ⟨by decide, by decide, by decide⟩

/-- Claim C7 amended: a reaper sweep that evicts a registry entry whose
connection is no longer alive removes the entry from both lookup directions
and, having evicted at least one entry, broadcasts the updated online count as
its only event; unlike an explicit disconnect it emits no offline-status
broadcast for the evicted userId. -/
theorem reaper_eviction_cleanup
    (s u s1 u1 : String) (q : List (String × List SavedMessage))
    (hs : s ≠ s1) (hu : u ≠ u1) :
    reaperSweep { userSockets := [(u1, s1), (u, s)], socketUsers := [(s1, u1), (s, u)],
                  offlineMessageQueue := q } [s1] =
      ({ userSockets := [(u1, s1)], socketUsers := [(s1, u1)], offlineMessageQueue := q },
       [Event.onlineUsersCount 1]) := by
  simp [reaperSweep, reapLoop, mdel, hs, hu, Ne.symm hs, Ne.symm hu]

theorem reaper_eviction_cleanup_witness :
    ("s0" : String) ≠ "s1" ∧
    reaperSweep { userSockets := [("u1", "s1"), ("u0", "s0")],
                  socketUsers := [("s1", "u1"), ("s0", "u0")],
                  offlineMessageQueue := [] } ["s1"] =
      ({ userSockets := [("u1", "s1")], socketUsers := [("s1", "u1")],
         offlineMessageQueue := [] },
       [Event.onlineUsersCount 1]) :=
  ⟨by decide, reaper_eviction_cleanup "s0" "u0" "s1" "u1" [] (by decide) (by decide)⟩

/-- Claim C9 counterexample: the claim says every ephemeral signal handler,
message-read included, validates that both payload identifiers are non-empty
before the registry lookup and drops malformed signals without forwarding.
The message-read handler validates nothing: with user A online, a message-read
whose messageId is empty is forwarded to the socket of A as a receipt carrying
the empty messageId, while the typing handler does drop a payload with an
empty fromUserId. -/
theorem message_read_forwards_unvalidated :
    messageReadHandler stBoth "sx" "" "ua" = [Event.messageReadReceipt "sa" ""] ∧
    typingHandler stBoth "sx" { toUserId := "ua", fromUserId := "", username := "x" } = [] := by
  refine ⟨by decide, by decide⟩

/-- Claim C9 amended: the typing and stop-typing handlers validate that both
identifiers are non-empty before the registry lookup and drop a malformed
payload silently, but the message-read handler performs no validation: it
looks the senderId up directly and forwards the receipt whenever that user is
registered, whatever the messageId, so a malformed read signal is propagated
to the far end. -/
theorem ephemeral_validation_split :
    (∀ (st : ServerState) (sockId : String) (data : TypingData),
       data.toUserId = "" ∨ data.fromUserId = "" →
       typingHandler st sockId data = [] ∧
       stopTypingHandler st sockId data.toUserId data.fromUserId = []) ∧
    (∀ (st : ServerState) (sockId messageId senderId targetSock : String),
       mget st.userSockets senderId = some targetSock →
       messageReadHandler st sockId messageId senderId
         = [Event.messageReadReceipt targetSock messageId]) := by
  constructor
  · intro st sockId data h
    exact ⟨by simp [typingHandler, h], by simp [stopTypingHandler, h]⟩
  · intro st sockId messageId senderId targetSock h
    simp [messageReadHandler, h]

theorem ephemeral_validation_split_witness :
    (typingHandler stBoth "sx" { toUserId := "", fromUserId := "ua", username := "x" } = [] ∧
     stopTypingHandler stBoth "sx" "" "ua" = []) ∧
    messageReadHandler stBoth "sx" "m7" "ua" = [Event.messageReadReceipt "sa" "m7"] :=
  ⟨ephemeral_validation_split.1 stBoth "sx"
     { toUserId := "", fromUserId := "ua", username := "x" } (Or.inl rfl),
   ephemeral_validation_split.2 stBoth "sx" "m7" "ua" "sa" (by decide)⟩

/-- The record persisted by one send, given the table length at that point. -/
def mkSavedOf (db : Db) (d : SendMessageData) (sender receiver : User) : SavedMessage :=
  { id := db.messages.length, content := d.content, sender := sender, receiver := receiver }

/-- The server state after one send to an offline receiver: the persisted
record is appended to the tail of the receiver queue (an absent queue counts
as empty, matching the has-check of the handler followed by the getD of the
persistence task). -/
def pushedQueue (st : ServerState) (k : String) (s : SavedMessage) : ServerState :=
  { st with offlineMessageQueue := mset st.offlineMessageQueue k ((mget st.offlineMessageQueue k).getD [] ++ [s]) }

/-- The database after one successful createMessage. -/
def pushedDb (db : Db) (s : SavedMessage) : Db :=
  { db with messages := db.messages ++ [s] }

/-- One complete send-message operation towards an offline receiver: no event
reaches the receiver, the record is persisted, confirmed to the sender, and
appended to the tail of the receiver queue (creating the queue when absent). -/
theorem sendOp_offline
    (db : Db) (st : ServerState) (sockId : String) (d : SendMessageData)
    (senderId : String) (sender receiver : User)
    (h1 : mget st.socketUsers sockId = some senderId) (h2 : senderId ≠ "")
    (h3 : findByClerkId db senderId = some sender)
    (h4 : findUserById db d.receiverId = some receiver)
    (h5 : mget st.userSockets receiver.clerkId = none) :
    sendMessageOp db st sockId d true =
      { db := pushedDb db (mkSavedOf db d sender receiver),
        st := pushedQueue st receiver.clerkId (mkSavedOf db d sender receiver),
        events := [Event.messageConfirmed sockId d.tempId (mkSavedOf db d sender receiver)],
        calls := [DbCall.findByClerk senderId, DbCall.findById d.receiverId,
                  DbCall.createMessage sender.id receiver.id d.content] } := by
  cases hq : mget st.offlineMessageQueue receiver.clerkId with
  | none =>
      simp [sendMessageOp, sendMessagePhase1, sendMessagePhase2, mkSavedOf,
            pushedDb, pushedQueue, h1, h2, h3, h4, h5, hq,
            mset_mset_self, mget_mset_self]
  | some q =>
      simp [sendMessageOp, sendMessagePhase1, sendMessagePhase2, mkSavedOf,
            pushedDb, pushedQueue, h1, h2, h3, h4, h5, hq]

/-- Sequential sends to an offline receiver whose queue key already exists:
the registry is untouched, the users table is untouched, the messages table
grows by one row per send, and the receiver queue gains exactly the persisted
records, in send order, appended after its previous content. -/
theorem sendMany_offline_queue (sockId senderId rid : String) (sender receiver : User)
    (datas : List SendMessageData) :
    ∀ (db : Db) (st : ServerState) (q : List SavedMessage),
    (∀ d ∈ datas, d.receiverId = rid) →
    mget st.socketUsers sockId = some senderId →
    senderId ≠ "" →
    findByClerkId db senderId = some sender →
    findUserById db rid = some receiver →
    mget st.userSockets receiver.clerkId = none →
    mget st.offlineMessageQueue receiver.clerkId = some q →
    (sendMany db st sockId datas).1.users = db.users ∧
    (sendMany db st sockId datas).1.messages.length = db.messages.length + datas.length ∧
    (sendMany db st sockId datas).2.userSockets = st.userSockets ∧
    (sendMany db st sockId datas).2.socketUsers = st.socketUsers ∧
    mget (sendMany db st sockId datas).2.offlineMessageQueue receiver.clerkId
      = some (q ++ expectedSaved db.messages.length sender receiver datas) := by
  induction datas with
  | nil =>
      intro db st q hds h1 h2 h3 h4 h5 h6
      simp [sendMany, expectedSaved, h6]
  | cons d ds ih =>
      intro db st q hds h1 h2 h3 h4 h5 h6
      have hd : d.receiverId = rid := hds d (by simp)
      have h4' : findUserById db d.receiverId = some receiver := by rw [hd]; exact h4
      have hstep := sendOp_offline db st sockId d senderId sender receiver h1 h2 h3 h4' h5
      have hunf : sendMany db st sockId (d :: ds)
          = sendMany (sendMessageOp db st sockId d true).db
                     (sendMessageOp db st sockId d true).st sockId ds := rfl
      rw [hunf, hstep]
      dsimp only
      have h6' : mget (pushedQueue st receiver.clerkId (mkSavedOf db d sender receiver)).offlineMessageQueue
            receiver.clerkId
          = some (q ++ [mkSavedOf db d sender receiver]) := by
        simp [pushedQueue, h6, mget_mset_self]
      have hih := ih (pushedDb db (mkSavedOf db d sender receiver))
        (pushedQueue st receiver.clerkId (mkSavedOf db d sender receiver))
        (q ++ [mkSavedOf db d sender receiver])
        (fun d' hmem => hds d' (List.mem_cons_of_mem d hmem))
        h1 h2 h3 h4 h5 h6'
      obtain ⟨ih1, ih2, ih3, ih4, ih5⟩ := hih
      refine ⟨ih1, ?_, ih3, ih4, ?_⟩
      · have hlen : (pushedDb db (mkSavedOf db d sender receiver)).messages.length
            = db.messages.length + 1 := by simp [pushedDb]
        rw [ih2, hlen, List.length_cons]
        omega
      · rw [ih5]
        simp [pushedDb, expectedSaved, mkSavedOf]

/-- Claim C8 amended: messages to an offline receiver are appended to that
receiver's queue in the order their persistence tasks complete, which equals
the send order only when the completions happen in send order.  For every
sequence of sends each of whose persistence completes before the next send is
handled, the queue holds exactly the persisted records in send order, and on
the receiver's next identify the whole queue is delivered at once, in
insertion order, after which the queue key is gone (so a second identify
delivers nothing). -/
theorem offline_messages_drained_in_order
    (db : Db) (st : ServerState) (sockId senderId rid rsock : String)
    (sender receiver : User) (d : SendMessageData) (ds : List SendMessageData)
    (hds : ∀ x ∈ (d :: ds), x.receiverId = rid)
    (h1 : mget st.socketUsers sockId = some senderId) (h2 : senderId ≠ "")
    (h3 : findByClerkId db senderId = some sender)
    (h4 : findUserById db rid = some receiver)
    (h5 : mget st.userSockets receiver.clerkId = none)
    (h6 : mget st.offlineMessageQueue receiver.clerkId = none)
    (h7 : findByClerkId db receiver.clerkId = some receiver)
    (h8 : receiver.clerkId ≠ "") :
    mget (sendMany db st sockId (d :: ds)).2.offlineMessageQueue receiver.clerkId
      = some (expectedSaved db.messages.length sender receiver (d :: ds)) ∧
    (userOnline (sendMany db st sockId (d :: ds)).1 (sendMany db st sockId (d :: ds)).2
        rsock receiver.clerkId).2 =
      [Event.userOnlineStatus rsock receiver.clerkId receiver.username receiver.avatar,
       Event.onlineUsersCount (st.userSockets.length + 1),
       Event.connectionConfirmed rsock receiver.clerkId (st.userSockets.length + 1)]
      ++ (expectedSaved db.messages.length sender receiver (d :: ds)).map
           (fun m => Event.newMessage rsock (MsgPayload.saved m)) ∧
    mget (userOnline (sendMany db st sockId (d :: ds)).1 (sendMany db st sockId (d :: ds)).2
        rsock receiver.clerkId).1.offlineMessageQueue receiver.clerkId = none := by
  have hd : d.receiverId = rid := hds d (by simp)
  have h4' : findUserById db d.receiverId = some receiver := by rw [hd]; exact h4
  have hstep := sendOp_offline db st sockId d senderId sender receiver h1 h2 h3 h4' h5
  have hFeq : sendMany db st sockId (d :: ds)
      = sendMany (pushedDb db (mkSavedOf db d sender receiver))
          (pushedQueue st receiver.clerkId (mkSavedOf db d sender receiver)) sockId ds := by
    show sendMany (sendMessageOp db st sockId d true).db
        (sendMessageOp db st sockId d true).st sockId ds = _
    rw [hstep]
  have hq1 : mget (pushedQueue st receiver.clerkId
        (mkSavedOf db d sender receiver)).offlineMessageQueue receiver.clerkId
      = some [mkSavedOf db d sender receiver] := by
    simp [pushedQueue, h6, mget_mset_self]
  have hmany := sendMany_offline_queue sockId senderId rid sender receiver ds
      (pushedDb db (mkSavedOf db d sender receiver))
      (pushedQueue st receiver.clerkId (mkSavedOf db d sender receiver))
      [mkSavedOf db d sender receiver]
      (fun x hx => hds x (List.mem_cons_of_mem d hx)) h1 h2 h3 h4 h5 hq1
  obtain ⟨m1, _m2, m3, _m4, m5⟩ := hmany
  have hlen : (pushedDb db (mkSavedOf db d sender receiver)).messages.length
      = db.messages.length + 1 := by simp [pushedDb]
  have hqF : mget (sendMany (pushedDb db (mkSavedOf db d sender receiver))
        (pushedQueue st receiver.clerkId (mkSavedOf db d sender receiver))
        sockId ds).2.offlineMessageQueue receiver.clerkId
      = some (expectedSaved db.messages.length sender receiver (d :: ds)) := by
    rw [m5, hlen]
    simp [expectedSaved, mkSavedOf]
  have husers : (sendMany (pushedDb db (mkSavedOf db d sender receiver))
        (pushedQueue st receiver.clerkId (mkSavedOf db d sender receiver)) sockId ds).1.users
      = db.users := m1
  have hclerk : findByClerkId (sendMany (pushedDb db (mkSavedOf db d sender receiver))
        (pushedQueue st receiver.clerkId (mkSavedOf db d sender receiver)) sockId ds).1
        receiver.clerkId = some receiver := by
    rw [findByClerkId_users_eq _ db _ husers]
    exact h7
  have hno : mget (sendMany (pushedDb db (mkSavedOf db d sender receiver))
        (pushedQueue st receiver.clerkId (mkSavedOf db d sender receiver)) sockId ds).2.userSockets
        receiver.clerkId = none := by
    rw [m3]; exact h5
  have hne : expectedSaved db.messages.length sender receiver (d :: ds) ≠ [] := by
    simp [expectedSaved]
  have hdrain := userOnline_fresh_drain
      (sendMany (pushedDb db (mkSavedOf db d sender receiver))
        (pushedQueue st receiver.clerkId (mkSavedOf db d sender receiver)) sockId ds).1
      (sendMany (pushedDb db (mkSavedOf db d sender receiver))
        (pushedQueue st receiver.clerkId (mkSavedOf db d sender receiver)) sockId ds).2
      rsock receiver.clerkId receiver
      (expectedSaved db.messages.length sender receiver (d :: ds))
      h8 hclerk hno hqF hne
  have hcnt : (sendMany (pushedDb db (mkSavedOf db d sender receiver))
        (pushedQueue st receiver.clerkId (mkSavedOf db d sender receiver))
        sockId ds).2.userSockets.length = st.userSockets.length := by
    rw [m3]
    simp [pushedQueue]
  obtain ⟨he, hq⟩ := hdrain
  rw [hcnt] at he
  rw [hFeq]
  exact ⟨hqF, he, hq⟩

def dataM2 : SendMessageData :=
  { receiverId := "b1", content := "second", tempId := "t3", timestamp := "T3" }

theorem offline_messages_drained_in_order_witness :
    mget stAOnly.userSockets uB.clerkId = none ∧
    (mget (sendMany dbC stAOnly "sa" (dataHi :: [dataM2])).2.offlineMessageQueue uB.clerkId
       = some (expectedSaved dbC.messages.length uA uB (dataHi :: [dataM2])) ∧
     (userOnline (sendMany dbC stAOnly "sa" (dataHi :: [dataM2])).1
         (sendMany dbC stAOnly "sa" (dataHi :: [dataM2])).2 "sb2" uB.clerkId).2 =
       [Event.userOnlineStatus "sb2" uB.clerkId uB.username uB.avatar,
        Event.onlineUsersCount (stAOnly.userSockets.length + 1),
        Event.connectionConfirmed "sb2" uB.clerkId (stAOnly.userSockets.length + 1)]
       ++ (expectedSaved dbC.messages.length uA uB (dataHi :: [dataM2])).map
            (fun m => Event.newMessage "sb2" (MsgPayload.saved m)) ∧
     mget (userOnline (sendMany dbC stAOnly "sa" (dataHi :: [dataM2])).1
         (sendMany dbC stAOnly "sa" (dataHi :: [dataM2])).2
         "sb2" uB.clerkId).1.offlineMessageQueue uB.clerkId = none) :=
  ⟨by decide,
   offline_messages_drained_in_order dbC stAOnly "sa" "ua" "b1" "sb2" uA uB dataHi [dataM2]
     (by decide) (by decide) (by decide) (by decide) (by decide) (by decide) (by decide)
     (by decide) (by decide)⟩

/-- The closure environment captured by the first offline send (dataHi). -/
def ctxOff1 : SendCtx :=
  { senderSockId := "sa", tempId := "t1", content := "hi", sender := uA, receiver := uB,
    receiverSocketId := none }

/-- The closure environment captured by the second offline send (dataM2). -/
def ctxOff2 : SendCtx :=
  { senderSockId := "sa", tempId := "t3", content := "second", sender := uA, receiver := uB,
    receiverSocketId := none }

/-- The server state after the handler parts of both sends have run but before
either persistence task has completed. -/
def stTwoPending : ServerState :=
  (sendMessagePhase1 dbC (sendMessagePhase1 dbC stAOnly "sa" dataHi).st "sa" dataM2).st

/-- Claim C8 counterexample: the claim says every message sent to an offline
receiver appears in the queue in the exact order sent and is delivered in that
order on the next identify.  The persistence tasks are detached, so their
completions may interleave out of send order: with B offline, A sends dataHi
(content hi) and then dataM2 (content second); both handlers run first, then
the persistence task of the SECOND send completes, then the one of the first.
The queue ends with the record of the second send before the record of the
first, and the drain on the next identify of B delivers the second-sent
message before the first-sent one. -/
theorem queue_order_not_send_order :
    (sendMessagePhase1 dbC stAOnly "sa" dataHi).ctx = some ctxOff1 ∧
    (sendMessagePhase1 dbC (sendMessagePhase1 dbC stAOnly "sa" dataHi).st "sa" dataM2).ctx
      = some ctxOff2 ∧
    mget (sendMessagePhase2
            (sendMessagePhase2 dbC stTwoPending ctxOff2 true).db
            (sendMessagePhase2 dbC stTwoPending ctxOff2 true).st
            ctxOff1 true).st.offlineMessageQueue "ub"
      = some [{ id := 0, content := "second", sender := uA, receiver := uB },
              { id := 1, content := "hi", sender := uA, receiver := uB }] ∧
    (userOnline
        (sendMessagePhase2
          (sendMessagePhase2 dbC stTwoPending ctxOff2 true).db
          (sendMessagePhase2 dbC stTwoPending ctxOff2 true).st
          ctxOff1 true).db
        (sendMessagePhase2
          (sendMessagePhase2 dbC stTwoPending ctxOff2 true).db
          (sendMessagePhase2 dbC stTwoPending ctxOff2 true).st
          ctxOff1 true).st
        "sb2" "ub").2.get? 3
      = some (Event.newMessage "sb2"
          (MsgPayload.saved { id := 0, content := "second", sender := uA, receiver := uB })) ∧
    (userOnline
        (sendMessagePhase2
          (sendMessagePhase2 dbC stTwoPending ctxOff2 true).db
          (sendMessagePhase2 dbC stTwoPending ctxOff2 true).st
          ctxOff1 true).db
        (sendMessagePhase2
          (sendMessagePhase2 dbC stTwoPending ctxOff2 true).db
          (sendMessagePhase2 dbC stTwoPending ctxOff2 true).st
          ctxOff1 true).st
        "sb2" "ub").2.get? 4
      = some (Event.newMessage "sb2"
          (MsgPayload.saved { id := 1, content := "hi", sender := uA, receiver := uB })) := by
  refine ⟨by decide, by decide, by decide, by decide, by decide⟩
